import Mathlib

/-!
# Collision space of `sbpl_collision_checking`

A shallow embedding of `sbpl_collision_space.h`.

The header defines one function body, `SBPLCollisionSpace::isValidCell`; every other
member function is only declared there.  The occupancy grid behind the `grid_` pointer
is declared in `occupancy_grid.h`, which is not among the sources, so the grid is taken
as a parameter: a state type together with the cell query that `isValidCell` calls.  What
that query answers outside the grid's bounds follows section 7 of the specification.
-/

namespace sbpl_arm_planner

/-! ## The occupancy grid interface -/

/-- The operations of `sbpl_arm_planner::OccupancyGrid` that the collision space uses, over
a grid state `σ`.  `getCell` is the call `grid_->getCell(x,y,z)`: it yields the value the
grid reports for the cell and the grid state after the call (the pointer is not `const`, so
the callee is free to change the grid).  `isInBounds` tells whether a cell lies inside the
grid's extent.  C++ `int` arguments are integers; `isValidCell` does no arithmetic on them,
only one comparison, so no wrap-around can occur.  The reported value is an integer that the
comparison `getCell(x,y,z) <= radius` reads as signed. -/
structure OccupancyGrid (σ : Type) where
  getCell : σ → Int → Int → Int → Int × σ
  isInBounds : σ → Int → Int → Int → Bool

/-- A concrete grid of extent `dx × dy × dz` whose state is its clearance map and whose
cell query reads the map without changing it. -/
def mapGrid (dx dy dz : Nat) : OccupancyGrid (Int → Int → Int → Int) where
  getCell := fun s x y z => (s x y z, s)
  isInBounds := fun _ x y z =>
    decide (0 ≤ x) && decide (x < dx) && decide (0 ≤ y) && decide (y < dy) &&
      decide (0 ≤ z) && decide (z < dz)

/-- Modelled from the spec: the cell query `OccupancyGrid::getCell` on a cell outside the
grid, whose definition (`occupancy_grid.h`) is not among the sources (section 7): "a
clearance query on an out-of-bounds cell" is "treat[ed] as occupied (fail safe toward
reporting collision) rather than propagated".  Over any grid `G`, a cell inside the bounds is
answered by `G`, and a cell outside the bounds is answered with the clearance 0 of an
occupied cell, the grid state being left as it is. -/
def occupiedOutside {σ : Type} (G : OccupancyGrid σ) : OccupancyGrid σ where
  getCell := fun s x y z => if G.isInBounds s x y z then G.getCell s x y z else (0, s)
  isInBounds := G.isInBounds

/-! ## `isValidCell` -/

/-- `SBPLCollisionSpace::isValidCell` (lines 194-199):
```
if(grid_->getCell(x,y,z) <= radius)
  return false;
return true;
```
The result is paired with the grid state left behind by the single `getCell` call. -/
def isValidCell {σ : Type} (grid_ : OccupancyGrid σ) (s : σ) (x y z radius : Int) : Bool × σ :=
  let r := grid_.getCell s x y z
  if r.1 ≤ radius then (false, r.2) else (true, r.2)

/-! ## Path collision check

`checkPathForCollision` and `interpolatePath` are declared in the header (lines 90-91 and
107-108); their bodies are not among the sources.  The definitions of this section follow
section 4.3 of the specification. -/

/-- The error taxonomy of section 7 of the specification. -/
inductive CollisionError where
  | ConfigurationSizeError
  | JointLimitError
  | KinematicsError
  | UninitializedError
  | GridStateError
  deriving DecidableEq, Repr

/-- The state of the scan over the interpolated samples: the step number of the last sample
looked at (samples are numbered from 1, as in the scenario of section 8, where a hit at
step 6 of 10 comes with 6 checks performed), the number of single-configuration checks run,
the minimum clearance seen so far (`none` before the first check) and the samples that were
checked, in order. -/
structure ScanState (J D : Type) where
  step : Nat
  num_checks : Nat
  dist : Option D
  checked : List (List J)

/-- The minimum clearance after one more observation. -/
def observe {D : Type} [LinearOrder D] : Option D → D → D
  | none, d => d
  | some m, d => min m d

/-- Modelled from the spec: the loop of `checkPathForCollision`, whose body is not among
the sources (section 4.3, step 2 and 3): "For each interpolated configuration in order, run
the single-configuration check. Stop at the first collision".  The single-configuration
check is the parameter `checkCollision`; it yields the validity of a configuration and its
clearance.  The boolean of the result tells whether the scan reached the end of the
samples without a collision. -/
def scanSamples {J D : Type} [LinearOrder D] (checkCollision : List J → Bool × D) :
    List (List J) → ScanState J D → Bool × ScanState J D
  | [], st => (true, st)
  | c :: rest, st =>
    let r := checkCollision c
    let st1 : ScanState J D :=
      { step := st.step + 1
        num_checks := st.num_checks + 1
        dist := some (observe st.dist r.2)
        checked := st.checked ++ [c] }
    if r.1 then scanSamples checkCollision rest st1 else (false, st1)

/-- What `checkPathForCollision` hands back: its return (validity, or the error it fails
with), the out-parameters `path_length`, `num_checks`, `dist` and `path_out` of the
declaration, and two records of what was done: the samples the interpolation produced and
the samples the single-configuration check was run on. -/
structure PathCheck (J D : Type) where
  result : Except CollisionError Bool
  path_length : Nat
  num_checks : Nat
  dist : Option D
  path_out : List (List J)
  sampled : List (List J)
  checked : List (List J)

/-- Modelled from the spec: `SBPLCollisionSpace::checkPathForCollision`, declared at lines
90-91 of the header, whose body is not among the sources (section 4.3).  Start and end must
have equal length, matching the stored joint count, otherwise the check "fail[s] with
ConfigurationSizeError before any sampling occurs".  Then the motion is interpolated (the
interpolation strategy is the parameter `interpolatePath`, "a function from two
configurations ... to a sequence of intermediate configurations"), the samples are scanned
in order, and the check reports the index of the first collision as path length, or "success
with path_length equal to full count and the minimum clearance observed across all
samples".  `wantPath` tells whether the optional output buffer `path_out` was passed.
Joint values (`J`) and clearances (`D`) are `double` in the declaration; the check only
copies the former and compares the latter, so both are kept abstract. -/
def checkPathForCollision {J D : Type} [LinearOrder D] (jointCount : Nat)
    (interpolatePath : List J → List J → List (List J))
    (checkCollision : List J → Bool × D)
    (start end_ : List J) (wantPath : Bool) : PathCheck J D :=
  if start.length ≠ end_.length ∨ start.length ≠ jointCount then
    { result := Except.error CollisionError.ConfigurationSizeError
      path_length := 0
      num_checks := 0
      dist := none
      path_out := []
      sampled := []
      checked := [] }
  else
    let path := interpolatePath start end_
    let r := scanSamples checkCollision path
      { step := 0, num_checks := 0, dist := none, checked := [] }
    { result := Except.ok r.1
      path_length := if r.1 then path.length else r.2.step
      num_checks := r.2.num_checks
      dist := r.2.dist
      path_out := if wantPath then path else []
      sampled := path
      checked := r.2.checked }

/-- An interpolation that yields the ten one-joint samples `[1]`, ..., `[10]`. -/
def tenSteps : List Nat → List Nat → List (List Nat) :=
  fun _ _ => [[1], [2], [3], [4], [5], [6], [7], [8], [9], [10]]

/-- A single-configuration check that reports a collision exactly at the sample `[6]`, with
clearance `0` there and the joint value as clearance elsewhere. -/
def hitAtSix : List Nat → Bool × Int :=
  fun c => if c = [6] then (false, 0) else (true, (c.headD 0 : Nat))

/-- A single-configuration check that finds every sample free, the clearance being the
distance of the joint value from 4, plus 2. -/
def allFree : List Nat → Bool × Int :=
  fun c => (true, |((c.headD 0 : Nat) : Int) - 4| + 2)

/-! ## Sphere group against sphere group

`checkSphereGroupAgainstSphereGroup` is declared at line 95 of the header; its body and the
types `Sphere` and `Group` (of `sbpl_collision_model.h`) are not among the sources.  The
definitions of this section follow sections 3 and 4.2 of the specification.  Coordinates and
radii are `double` in the declaration and rationals here. -/

/-- A point of the world frame (`KDL::Vector`). -/
structure Vector3 where
  x : ℚ
  y : ℚ
  z : ℚ

/-- Modelled from the spec: the `Sphere` of section 3, whose declaration is not among the
sources: "a 3D offset in a link's local frame, a radius, a resolution tier (high/low), and a
priority". -/
structure Sphere where
  v : Vector3
  radius : ℚ
  low_res : Bool
  priority : Int

/-- Modelled from the spec: the `Group` of section 3, whose declaration is not among the
sources: "a named set of Spheres bound to one link/frame of the kinematic chain". -/
structure Group where
  name : String
  spheres : List Sphere

/-- The square of the Euclidean distance of two points. -/
def distSq (p q : Vector3) : ℚ :=
  (p.x - q.x) ^ 2 + (p.y - q.y) ^ 2 + (p.z - q.z) ^ 2

/-- Modelled from the spec: the sphere-against-sphere test of section 4.2, step 4: "test
sphere-vs-sphere Euclidean distance against the sum of radii; a distance below that sum is
a collision".  The distance `√(distSq p q)` is below `r1 + r2` exactly when the sum is
positive and `distSq p q` is below its square. -/
def spheresCollide (p : Vector3) (r1 : ℚ) (q : Vector3) (r2 : ℚ) : Bool :=
  decide (0 < r1 + r2) && decide (distSq p q < (r1 + r2) ^ 2)

/-- Modelled from the spec: two closed priority ranges overlap when they share an integer
(section 4.2, step 4, "every pair of Groups whose priority ranges overlap"). -/
def prioritiesOverlap (min1 max1 min2 max2 : Int) : Bool :=
  decide (max min1 min2 ≤ min max1 max2)

/-- The spheres of a group at the resolution tier asked for, each with its world position;
`positions` lists the positions of the spheres of that tier in order. -/
def placedSpheres (g : Group) (low_res : Bool) (positions : List Vector3) :
    List (Sphere × Vector3) :=
  (g.spheres.filter (fun s => s.low_res == low_res)).zip positions

/-- Modelled from the spec: `SBPLCollisionSpace::checkSphereGroupAgainstSphereGroup`,
declared at line 95 of the header, whose body is not among the sources (section 4.2, step
4): "for every pair of Groups whose priority ranges overlap ... test sphere-vs-sphere
Euclidean distance against the sum of radii; a distance below that sum is a collision".
The result is `true` when no collision is reported, as for the other checks of the class. -/
def checkSphereGroupAgainstSphereGroup (group1 group2 : Group)
    (spheres1 spheres2 : List Vector3) (low_res1 low_res2 : Bool)
    (group1_min_priority group1_max_priority group2_min_priority group2_max_priority : Int) :
    Bool :=
  if prioritiesOverlap group1_min_priority group1_max_priority
      group2_min_priority group2_max_priority then
    (placedSpheres group1 low_res1 spheres1).all fun a =>
      (placedSpheres group2 low_res2 spheres2).all fun b =>
        !spheresCollide a.2 a.1.radius b.2 b.1.radius
  else
    true

/-- A group of one high-resolution sphere of radius 1 and priority 1. -/
def unitGroup (name : String) : Group :=
  { name := name
    spheres := [{ v := ⟨0, 0, 0⟩, radius := 1, low_res := false, priority := 1 }] }

/-! ## Basic facts about `isValidCell` -/

theorem isValidCell_fst_eq_true {σ : Type} (G : OccupancyGrid σ) (s : σ) (x y z radius : Int) :
    (isValidCell G s x y z radius).1 = true ↔ radius < (G.getCell s x y z).1 := by
  unfold isValidCell
  by_cases h : (G.getCell s x y z).1 ≤ radius
  · simp [h]
  · simp [h]; omega

theorem isValidCell_fst_eq_false {σ : Type} (G : OccupancyGrid σ) (s : σ) (x y z radius : Int) :
    (isValidCell G s x y z radius).1 = false ↔ (G.getCell s x y z).1 ≤ radius := by
  unfold isValidCell
  by_cases h : (G.getCell s x y z).1 ≤ radius
  · simp [h]
  · simp [h]

theorem isValidCell_snd {σ : Type} (G : OccupancyGrid σ) (s : σ) (x y z radius : Int) :
    (isValidCell G s x y z radius).2 = (G.getCell s x y z).2 := by
  unfold isValidCell
  by_cases h : (G.getCell s x y z).1 ≤ radius <;> simp [h]

/-! ## The cell test: comparison with the clearance -/

/-- C1: for every grid, grid state, cell and radius, `isValidCell` returns true if and only
if the value the grid reports for the cell is strictly greater than the radius; it returns
false when the clearance is below the radius and true when it is above; with clearance 5
and radius 2 the cell is valid, with clearance 1 and radius 2 it is not. -/
theorem isValidCell_iff_clearance_gt {σ : Type} (G : OccupancyGrid σ) (s : σ)
    (x y z radius : Int) :
    ((isValidCell G s x y z radius).1 = true ↔ (G.getCell s x y z).1 > radius) ∧
    ((G.getCell s x y z).1 < radius → (isValidCell G s x y z radius).1 = false) ∧
    ((G.getCell s x y z).1 > radius → (isValidCell G s x y z radius).1 = true) ∧
    (isValidCell (mapGrid 10 10 10) (fun _ _ _ => 5) 3 4 5 2).1 = true ∧
    (isValidCell (mapGrid 10 10 10) (fun _ _ _ => 1) 3 4 5 2).1 = false := by
  refine ⟨isValidCell_fst_eq_true G s x y z radius, ?_, ?_, by decide, by decide⟩
  · intro h
    exact (isValidCell_fst_eq_false G s x y z radius).2 (le_of_lt h)
  · intro h
    exact (isValidCell_fst_eq_true G s x y z radius).2 h

/-- C2, counterexample: on the grid whose clearance is 2 everywhere, the cell (1,1,1) has
clearance exactly equal to the radius 2, and `isValidCell` returns false for it. -/
theorem isValidCell_equality_counterexample :
    ((mapGrid 10 10 10).getCell (fun _ _ _ => 2) 1 1 1).1 = 2 ∧
    (isValidCell (mapGrid 10 10 10) (fun _ _ _ => 2) 1 1 1 2).1 = false := by
  decide

/-- C2, amended: the boundary at equality is on the invalid side: for every cell whose
clearance is exactly equal to the radius, `isValidCell` returns false. -/
theorem isValidCell_equality_invalid {σ : Type} (G : OccupancyGrid σ) (s : σ)
    (x y z radius : Int) (heq : (G.getCell s x y z).1 = radius) :
    (isValidCell G s x y z radius).1 = false :=
  (isValidCell_fst_eq_false G s x y z radius).2 (le_of_eq heq)

/-- C2, witness: a cell of clearance 7 tested with the radius 7 is invalid. -/
theorem isValidCell_equality_invalid_witness :
    ((mapGrid 10 10 10).getCell (fun _ _ _ => 7) 0 9 4).1 = 7 ∧
    (isValidCell (mapGrid 10 10 10) (fun _ _ _ => 7) 0 9 4 7).1 = false :=
  ⟨by decide, isValidCell_equality_invalid (mapGrid 10 10 10) (fun _ _ _ => 7) 0 9 4 7
    (by decide)⟩

/-! ## The cell test outside the grid -/

/-- C3: a clearance query on an out-of-bounds cell is treated as occupied: on a grid that
answers out-of-bounds queries as occupied, for every cell outside the bounds and every
radius >= 0, `isValidCell` returns false, so the cell is never reported as free space; the
call yields this boolean and the untouched grid state, and no error. -/
theorem isValidCell_out_of_bounds_occupied {σ : Type} (G : OccupancyGrid σ) (s : σ)
    (x y z radius : Int) (hout : (occupiedOutside G).isInBounds s x y z = false)
    (hr : 0 ≤ radius) :
    isValidCell (occupiedOutside G) s x y z radius = (false, s) := by
  have hraw : G.isInBounds s x y z = false := hout
  have hcell : (occupiedOutside G).getCell s x y z = (0, s) := by
    simp [occupiedOutside, hraw]
  unfold isValidCell
  rw [hcell]
  simp [hr]

/-- C3, witness: the cell (-1,0,0) lies outside a 10 x 10 x 10 grid whose stored clearance
is 5 everywhere; tested with the radius 0 it is invalid. -/
theorem isValidCell_out_of_bounds_occupied_witness :
    (occupiedOutside (mapGrid 10 10 10)).isInBounds (fun _ _ _ => 5) (-1) 0 0 = false ∧
    (0 : Int) ≤ 0 ∧
    isValidCell (occupiedOutside (mapGrid 10 10 10)) (fun _ _ _ => 5) (-1) 0 0 0
      = (false, fun _ _ _ => 5) :=
  ⟨by decide, by decide,
    isValidCell_out_of_bounds_occupied (mapGrid 10 10 10) (fun _ _ _ => 5) (-1) 0 0 0
      (by decide) (by decide)⟩

/-- Inside the bounds the same grid answers with the stored clearance: the cell (3,4,5) of
clearance 5 is valid for the radius 2. -/
theorem isValidCell_in_bounds_value :
    (occupiedOutside (mapGrid 10 10 10)).isInBounds (fun _ _ _ => 5) 3 4 5 = true ∧
    (isValidCell (occupiedOutside (mapGrid 10 10 10)) (fun _ _ _ => 5) 3 4 5 2).1 = true := by
  decide

/-! ## The cell test under changes of the grid -/

/-- C4: let a cell be valid for a radius >= 0 in the grid state `s`.  In every grid state
`sAdd` in which the cell is occupied (its clearance is 0) `isValidCell` returns false, and
in every grid state `sRem` in which the clearance of the cell is back at its value in `s`
it returns true again.  For any two grid states, if the clearance of the cell in the second
is at most that in the first and the cell is invalid in the first, it is invalid in the
second. -/
theorem isValidCell_monotone_obstacle {σ : Type} (G : OccupancyGrid σ) (s sAdd sRem : σ)
    (x y z radius : Int) (hr : 0 ≤ radius)
    (hvalid : (isValidCell G s x y z radius).1 = true)
    (hadd : (G.getCell sAdd x y z).1 = 0)
    (hrem : (G.getCell sRem x y z).1 = (G.getCell s x y z).1) :
    (isValidCell G sAdd x y z radius).1 = false ∧
    (isValidCell G sRem x y z radius).1 = (isValidCell G s x y z radius).1 ∧
    (isValidCell G sRem x y z radius).1 = true ∧
    (∀ (t t1 : σ) (r : Int), (G.getCell t1 x y z).1 ≤ (G.getCell t x y z).1 →
      (isValidCell G t x y z r).1 = false → (isValidCell G t1 x y z r).1 = false) := by
  have hs := (isValidCell_fst_eq_true G s x y z radius).1 hvalid
  have hback : (isValidCell G sRem x y z radius).1 = true :=
    (isValidCell_fst_eq_true G sRem x y z radius).2 (by rw [hrem]; exact hs)
  refine ⟨?_, ?_, hback, ?_⟩
  · exact (isValidCell_fst_eq_false G sAdd x y z radius).2 (by rw [hadd]; exact hr)
  · rw [hback, hvalid]
  · intro t t1 r hle hinv
    have ht := (isValidCell_fst_eq_false G t x y z r).1 hinv
    exact (isValidCell_fst_eq_false G t1 x y z r).2 (le_trans hle ht)

/-- C4, witness: a cell of clearance 5 and radius 2; the obstacle brings the clearance to 0
and its removal back to 5. -/
theorem isValidCell_monotone_obstacle_witness :
    (0 : Int) ≤ 2 ∧
    (isValidCell (mapGrid 10 10 10) (fun _ _ _ => 5) 3 4 5 2).1 = true ∧
    ((mapGrid 10 10 10).getCell (fun x y z => if x = 3 ∧ y = 4 ∧ z = 5 then 0 else 5)
      3 4 5).1 = 0 ∧
    ((mapGrid 10 10 10).getCell (fun _ _ _ => 5) 3 4 5).1
      = ((mapGrid 10 10 10).getCell (fun _ _ _ => 5) 3 4 5).1 ∧
    ((isValidCell (mapGrid 10 10 10) (fun x y z => if x = 3 ∧ y = 4 ∧ z = 5 then 0 else 5)
        3 4 5 2).1 = false ∧
      (isValidCell (mapGrid 10 10 10) (fun _ _ _ => 5) 3 4 5 2).1
        = (isValidCell (mapGrid 10 10 10) (fun _ _ _ => 5) 3 4 5 2).1 ∧
      (isValidCell (mapGrid 10 10 10) (fun _ _ _ => 5) 3 4 5 2).1 = true ∧
      (∀ (t t1 : Int → Int → Int → Int) (r : Int),
        ((mapGrid 10 10 10).getCell t1 3 4 5).1 ≤ ((mapGrid 10 10 10).getCell t 3 4 5).1 →
        (isValidCell (mapGrid 10 10 10) t 3 4 5 r).1 = false →
        (isValidCell (mapGrid 10 10 10) t1 3 4 5 r).1 = false)) :=
  ⟨by decide, by decide, by decide, rfl,
    isValidCell_monotone_obstacle (mapGrid 10 10 10) (fun _ _ _ => 5)
      (fun x y z => if x = 3 ∧ y = 4 ∧ z = 5 then 0 else 5) (fun _ _ _ => 5) 3 4 5 2
      (by decide) (by decide) (by decide) rfl⟩

/-- C10: `isValidCell` is anti-monotone in the radius: a cell that is valid for a radius
`r` is valid for every radius `r1 <= r`, in the same grid state. -/
theorem isValidCell_antitone_radius {σ : Type} (G : OccupancyGrid σ) (s : σ)
    (x y z r r1 : Int) (hle : r1 ≤ r) (hvalid : (isValidCell G s x y z r).1 = true) :
    (isValidCell G s x y z r1).1 = true := by
  have h := (isValidCell_fst_eq_true G s x y z r).1 hvalid
  exact (isValidCell_fst_eq_true G s x y z r1).2 (lt_of_le_of_lt hle h)

/-- C10, witness: a cell of clearance 5 is valid for the radius 4, hence for the radius 1. -/
theorem isValidCell_antitone_radius_witness :
    (1 : Int) ≤ 4 ∧ (isValidCell (mapGrid 10 10 10) (fun _ _ _ => 5) 3 4 5 4).1 = true ∧
    (isValidCell (mapGrid 10 10 10) (fun _ _ _ => 5) 3 4 5 1).1 = true :=
  ⟨by decide, by decide,
    isValidCell_antitone_radius (mapGrid 10 10 10) (fun _ _ _ => 5) 3 4 5 4 1 (by decide)
      (by decide)⟩

/-! ## The cell test as a query -/

/-- C5: `isValidCell` changes the grid state only through its one `getCell` call; when that
query is read-only, `isValidCell` leaves the grid state unchanged, and a second call on the
state the first one left, with the same cell and radius, returns the same boolean. -/
theorem isValidCell_read_only {σ : Type} (G : OccupancyGrid σ)
    (hquery : ∀ (s : σ) (x y z : Int), (G.getCell s x y z).2 = s)
    (s : σ) (x y z radius : Int) :
    (isValidCell G s x y z radius).2 = s ∧
    (isValidCell G (isValidCell G s x y z radius).2 x y z radius).2 = s ∧
    (isValidCell G (isValidCell G s x y z radius).2 x y z radius).1 =
      (isValidCell G s x y z radius).1 := by
  have h : (isValidCell G s x y z radius).2 = s := by
    rw [isValidCell_snd]; exact hquery s x y z
  rw [h]
  exact ⟨rfl, h, rfl⟩

/-- C5, witness: the cell query of `mapGrid` is read-only, so `isValidCell` leaves the
clearance map as it was. -/
theorem isValidCell_read_only_witness :
    (∀ (s : Int → Int → Int → Int) (x y z : Int),
      ((mapGrid 10 10 10).getCell s x y z).2 = s) ∧
    ((isValidCell (mapGrid 10 10 10) (fun _ _ _ => 5) 3 4 5 2).2 = (fun _ _ _ => 5) ∧
      (isValidCell (mapGrid 10 10 10)
        (isValidCell (mapGrid 10 10 10) (fun _ _ _ => 5) 3 4 5 2).2 3 4 5 2).2
        = (fun _ _ _ => 5) ∧
      (isValidCell (mapGrid 10 10 10)
        (isValidCell (mapGrid 10 10 10) (fun _ _ _ => 5) 3 4 5 2).2 3 4 5 2).1
        = (isValidCell (mapGrid 10 10 10) (fun _ _ _ => 5) 3 4 5 2).1) :=
  ⟨fun _ _ _ _ => rfl,
    isValidCell_read_only (mapGrid 10 10 10) (fun _ _ _ _ => rfl) (fun _ _ _ => 5) 3 4 5 2⟩

/-! ## The scan over the samples -/

theorem scanSamples_first_collision {J D : Type} [LinearOrder D]
    (check : List J → Bool × D) (pre : List (List J)) (c : List J) (post : List (List J))
    (st : ScanState J D) (hfree : ∀ a ∈ pre, (check a).1 = true)
    (hhit : (check c).1 = false) :
    (scanSamples check (pre ++ c :: post) st).1 = false ∧
    (scanSamples check (pre ++ c :: post) st).2.step = st.step + pre.length + 1 ∧
    (scanSamples check (pre ++ c :: post) st).2.num_checks =
      st.num_checks + pre.length + 1 ∧
    (scanSamples check (pre ++ c :: post) st).2.checked = st.checked ++ pre ++ [c] := by
  induction pre generalizing st with
  | nil => simp [scanSamples, hhit]
  | cons a pre ih =>
    have ha : (check a).1 = true := hfree a (List.mem_cons_self a pre)
    have hrest : ∀ b ∈ pre, (check b).1 = true :=
      fun b hb => hfree b (List.mem_cons_of_mem a hb)
    simp only [List.cons_append, scanSamples, ha, if_true, List.append_eq]
    obtain ⟨h1, h2, h3, h4⟩ := ih _ hrest
    refine ⟨h1, ?_, ?_, ?_⟩
    · rw [h2]; simp only [List.length_cons]; omega
    · rw [h3]; simp only [List.length_cons]; omega
    · rw [h4]; simp

theorem scanSamples_all_free {J D : Type} [LinearOrder D]
    (check : List J → Bool × D) (l : List (List J)) (st : ScanState J D)
    (hfree : ∀ a ∈ l, (check a).1 = true) :
    (scanSamples check l st).1 = true ∧
    (scanSamples check l st).2.step = st.step + l.length ∧
    (scanSamples check l st).2.num_checks = st.num_checks + l.length ∧
    (scanSamples check l st).2.checked = st.checked ++ l ∧
    (scanSamples check l st).2.dist =
      (l.map fun a => (check a).2).foldl (fun o d => some (observe o d)) st.dist := by
  induction l generalizing st with
  | nil => simp [scanSamples]
  | cons a l ih =>
    have ha : (check a).1 = true := hfree a (List.mem_cons_self a l)
    have hrest : ∀ b ∈ l, (check b).1 = true :=
      fun b hb => hfree b (List.mem_cons_of_mem a hb)
    simp only [scanSamples, ha, if_true]
    obtain ⟨h1, h2, h3, h4, h5⟩ := ih _ hrest
    refine ⟨h1, ?_, ?_, ?_, ?_⟩
    · rw [h2]; simp only [List.length_cons]; omega
    · rw [h3]; simp only [List.length_cons]; omega
    · rw [h4]; simp
    · rw [h5]; simp

theorem foldl_observe_some {D : Type} [LinearOrder D] (l : List D) (m : D) :
    l.foldl (fun o d => some (observe o d)) (some m) = some (l.foldl min m) := by
  induction l generalizing m with
  | nil => rfl
  | cons d l ih => simp only [List.foldl_cons, observe]; exact ih (min m d)

theorem foldl_observe_none {D : Type} [LinearOrder D] (l : List D) :
    l.foldl (fun o d => some (observe o d)) none = l.min? := by
  cases l with
  | nil => rfl
  | cons d l =>
    simp only [List.foldl_cons, observe, List.min?_cons']
    exact foldl_observe_some l d

theorem min?_is_least {D : Type} [LinearOrder D] (l : List D) (m : D)
    (h : l.min? = some m) : m ∈ l ∧ ∀ d ∈ l, m ≤ d := by
  haveI : Std.Antisymm (fun (a b : D) => a ≤ b) := ⟨fun h1 h2 => le_antisymm h1 h2⟩
  exact (List.min?_eq_some_iff (fun a => le_refl a) (fun a b => min_choice a b)
    (fun _ _ _ => le_min_iff)).1 h

/-! ## The path check -/

/-- C6: when start and end have the stored joint count and the first colliding sample of
the interpolated path is at step `k` (steps numbered from 1: the samples before it are
free, the `k`-th is in collision), `checkPathForCollision` returns invalid with
`path_length = k` and `num_checks = k`, and the samples checked are exactly the first `k`:
no sample after step `k` is checked. -/
theorem checkPathForCollision_first_collision {J D : Type} [LinearOrder D]
    (jointCount : Nat) (interp : List J → List J → List (List J))
    (check : List J → Bool × D) (start end_ : List J) (wantPath : Bool) (k : Nat)
    (hsize : start.length = end_.length ∧ start.length = jointCount)
    (hk : 1 ≤ k)
    (hfree : ∀ c ∈ (interp start end_).take (k - 1), (check c).1 = true)
    (hhit : ((interp start end_)[k - 1]?).map (fun c => (check c).1) = some false) :
    (checkPathForCollision jointCount interp check start end_ wantPath).result
      = Except.ok false ∧
    (checkPathForCollision jointCount interp check start end_ wantPath).path_length = k ∧
    (checkPathForCollision jointCount interp check start end_ wantPath).num_checks = k ∧
    (checkPathForCollision jointCount interp check start end_ wantPath).checked
      = (interp start end_).take k := by
  obtain ⟨hse, hsj⟩ := hsize
  have hcond : ¬ (start.length ≠ end_.length ∨ start.length ≠ jointCount) := by
    rintro (h | h)
    · exact h hse
    · exact h hsj
  obtain ⟨c, hc, hcf⟩ :
      ∃ c, (interp start end_)[k - 1]? = some c ∧ (check c).1 = false := by
    cases hq : (interp start end_)[k - 1]? with
    | none => rw [hq] at hhit; simp at hhit
    | some c => rw [hq] at hhit; exact ⟨c, rfl, by simpa using hhit⟩
  obtain ⟨hlt, hget⟩ := List.getElem?_eq_some_iff.1 hc
  have hsplit : (interp start end_).take (k - 1) ++ c :: (interp start end_).drop (k - 1 + 1)
      = interp start end_ := by
    rw [← hget, ← List.drop_eq_getElem_cons hlt, List.take_append_drop]
  have htake : (interp start end_).take k = (interp start end_).take (k - 1) ++ [c] := by
    have hk1 : k = k - 1 + 1 := by omega
    conv_lhs => rw [hk1]
    rw [List.take_succ, hc]; rfl
  have hlen : ((interp start end_).take (k - 1)).length = k - 1 := by
    rw [List.length_take]; omega
  obtain ⟨h1, h2, h3, h4⟩ := scanSamples_first_collision check _ c
    ((interp start end_).drop (k - 1 + 1))
    { step := 0, num_checks := 0, dist := none, checked := [] } hfree hcf
  rw [hsplit] at h1 h2 h3 h4
  rw [hlen] at h2 h3
  refine ⟨?_, ?_, ?_, ?_⟩
  · simp only [checkPathForCollision, if_neg hcond, h1]
  · simp only [checkPathForCollision, if_neg hcond, h1, h2]
    simp only [Bool.false_eq_true, if_false]
    omega
  · simp only [checkPathForCollision, if_neg hcond, h3]
    omega
  · simp only [checkPathForCollision, if_neg hcond, h4, htake]
    simp

/-- C6, witness: ten interpolation steps with a collision at step 6 give invalid,
`path_length = 6`, `num_checks = 6`, and the samples checked are the first six. -/
theorem checkPathForCollision_first_collision_witness :
    (([1] : List Nat).length = [10].length ∧ ([1] : List Nat).length = 1) ∧ 1 ≤ 6 ∧
    (∀ c ∈ (tenSteps [1] [10]).take (6 - 1), (hitAtSix c).1 = true) ∧
    ((tenSteps [1] [10])[6 - 1]?).map (fun c => (hitAtSix c).1) = some false ∧
    ((checkPathForCollision 1 tenSteps hitAtSix [1] [10] true).result = Except.ok false ∧
      (checkPathForCollision 1 tenSteps hitAtSix [1] [10] true).path_length = 6 ∧
      (checkPathForCollision 1 tenSteps hitAtSix [1] [10] true).num_checks = 6 ∧
      (checkPathForCollision 1 tenSteps hitAtSix [1] [10] true).checked
        = (tenSteps [1] [10]).take 6) :=
  ⟨by decide, by decide, by decide, by decide,
    checkPathForCollision_first_collision 1 tenSteps hitAtSix [1] [10] true 6
      (by decide) (by decide) (by decide) (by decide)⟩

/-- C7: when start and end have the stored joint count and every interpolated sample is
collision-free, `checkPathForCollision` returns valid with `path_length` equal to the
number of samples, every sample checked once, and `dist` equal to the minimum of the
clearances that the single-configuration check reports for the samples: it is one of them
and none of them is smaller. -/
theorem checkPathForCollision_all_free {J D : Type} [LinearOrder D]
    (jointCount : Nat) (interp : List J → List J → List (List J))
    (check : List J → Bool × D) (start end_ : List J) (wantPath : Bool)
    (hsize : start.length = end_.length ∧ start.length = jointCount)
    (hfree : ∀ c ∈ interp start end_, (check c).1 = true) :
    (checkPathForCollision jointCount interp check start end_ wantPath).result
      = Except.ok true ∧
    (checkPathForCollision jointCount interp check start end_ wantPath).path_length
      = (interp start end_).length ∧
    (checkPathForCollision jointCount interp check start end_ wantPath).num_checks
      = (interp start end_).length ∧
    (checkPathForCollision jointCount interp check start end_ wantPath).checked
      = interp start end_ ∧
    (checkPathForCollision jointCount interp check start end_ wantPath).dist
      = ((interp start end_).map fun c => (check c).2).min? ∧
    (∀ m, (checkPathForCollision jointCount interp check start end_ wantPath).dist = some m →
      (∃ c ∈ interp start end_, (check c).2 = m) ∧
      ∀ c ∈ interp start end_, m ≤ (check c).2) ∧
    (interp start end_ ≠ [] →
      ∃ m, (checkPathForCollision jointCount interp check start end_ wantPath).dist
        = some m) := by
  obtain ⟨hse, hsj⟩ := hsize
  have hcond : ¬ (start.length ≠ end_.length ∨ start.length ≠ jointCount) := by
    rintro (h | h)
    · exact h hse
    · exact h hsj
  obtain ⟨h1, _, h3, h4, h5⟩ := scanSamples_all_free check (interp start end_)
    { step := 0, num_checks := 0, dist := none, checked := [] } hfree
  rw [foldl_observe_none] at h5
  have hdist : (checkPathForCollision jointCount interp check start end_ wantPath).dist
      = ((interp start end_).map fun c => (check c).2).min? := by
    simp only [checkPathForCollision, if_neg hcond, h5]
  refine ⟨?_, ?_, ?_, ?_, hdist, ?_, ?_⟩
  · simp only [checkPathForCollision, if_neg hcond, h1]
  · simp only [checkPathForCollision, if_neg hcond, h1, if_true]
  · simp only [checkPathForCollision, if_neg hcond, h3]; omega
  · simp only [checkPathForCollision, if_neg hcond, h4]; simp
  · intro m hm
    rw [hdist] at hm
    obtain ⟨hmem, hle⟩ := min?_is_least _ m hm
    refine ⟨?_, ?_⟩
    · obtain ⟨c, hc, hcm⟩ := List.mem_map.1 hmem
      exact ⟨c, hc, hcm⟩
    · intro c hc
      exact hle _ (List.mem_map.2 ⟨c, hc, rfl⟩)
  · intro hne
    rw [hdist]
    cases hl : interp start end_ with
    | nil => exact absurd hl hne
    | cons a l => exact ⟨_, rfl⟩

/-- C8: when start and end differ in length, or their length differs from the stored joint
count, `checkPathForCollision` fails with `ConfigurationSizeError` before any sampling: no
sample is produced, no single-configuration check is run, `num_checks` is 0 and the output
path is empty. -/
theorem checkPathForCollision_size_error {J D : Type} [LinearOrder D]
    (jointCount : Nat) (interp : List J → List J → List (List J))
    (check : List J → Bool × D) (start end_ : List J) (wantPath : Bool)
    (hsize : start.length ≠ end_.length ∨ start.length ≠ jointCount) :
    (checkPathForCollision jointCount interp check start end_ wantPath).result
      = Except.error CollisionError.ConfigurationSizeError ∧
    (checkPathForCollision jointCount interp check start end_ wantPath).sampled = [] ∧
    (checkPathForCollision jointCount interp check start end_ wantPath).checked = [] ∧
    (checkPathForCollision jointCount interp check start end_ wantPath).num_checks = 0 ∧
    (checkPathForCollision jointCount interp check start end_ wantPath).path_out = [] := by
  simp only [checkPathForCollision, if_pos hsize, and_self]

/-- C7, witness: ten free samples with clearances 5, 4, 3, 2, 3, ..., 8. -/
theorem checkPathForCollision_all_free_witness :
    (([1] : List Nat).length = [10].length ∧ ([1] : List Nat).length = 1) ∧
    (∀ c ∈ tenSteps [1] [10], (allFree c).1 = true) ∧
    ((checkPathForCollision 1 tenSteps allFree [1] [10] false).result = Except.ok true ∧
      (checkPathForCollision 1 tenSteps allFree [1] [10] false).path_length
        = (tenSteps [1] [10]).length ∧
      (checkPathForCollision 1 tenSteps allFree [1] [10] false).num_checks
        = (tenSteps [1] [10]).length ∧
      (checkPathForCollision 1 tenSteps allFree [1] [10] false).checked = tenSteps [1] [10] ∧
      (checkPathForCollision 1 tenSteps allFree [1] [10] false).dist
        = ((tenSteps [1] [10]).map fun c => (allFree c).2).min? ∧
      (∀ m, (checkPathForCollision 1 tenSteps allFree [1] [10] false).dist = some m →
        (∃ c ∈ tenSteps [1] [10], (allFree c).2 = m) ∧
        ∀ c ∈ tenSteps [1] [10], m ≤ (allFree c).2) ∧
      (tenSteps [1] [10] ≠ [] →
        ∃ m, (checkPathForCollision 1 tenSteps allFree [1] [10] false).dist = some m)) :=
  ⟨by decide, by decide,
    checkPathForCollision_all_free 1 tenSteps allFree [1] [10] false (by decide) (by decide)⟩

/-- The free path of ten samples evaluated: valid, full length 10, ten checks, minimum
clearance 2. -/
theorem checkPathForCollision_all_free_value :
    (checkPathForCollision 1 tenSteps allFree [1] [10] false).result = Except.ok true ∧
    (checkPathForCollision 1 tenSteps allFree [1] [10] false).path_length = 10 ∧
    (checkPathForCollision 1 tenSteps allFree [1] [10] false).num_checks = 10 ∧
    (checkPathForCollision 1 tenSteps allFree [1] [10] false).dist = some 2 :=
  ⟨rfl, by decide, by decide, by decide⟩

/-- C8, witness: a start of two joints and an end of one joint, with two joints stored. -/
theorem checkPathForCollision_size_error_witness :
    (([1, 2] : List Nat).length ≠ [3].length ∨ ([1, 2] : List Nat).length ≠ 2) ∧
    ((checkPathForCollision 2 tenSteps hitAtSix [1, 2] [3] true).result
        = Except.error CollisionError.ConfigurationSizeError ∧
      (checkPathForCollision 2 tenSteps hitAtSix [1, 2] [3] true).sampled = [] ∧
      (checkPathForCollision 2 tenSteps hitAtSix [1, 2] [3] true).checked = [] ∧
      (checkPathForCollision 2 tenSteps hitAtSix [1, 2] [3] true).num_checks = 0 ∧
      (checkPathForCollision 2 tenSteps hitAtSix [1, 2] [3] true).path_out = []) :=
  ⟨by decide,
    checkPathForCollision_size_error 2 tenSteps hitAtSix [1, 2] [3] true (by decide)⟩

/-! ## Priority filtering -/

theorem prioritiesOverlap_eq_false (min1 max1 min2 max2 : Int)
    (hdisjoint : ∀ p : Int, ¬ (min1 ≤ p ∧ p ≤ max1 ∧ min2 ≤ p ∧ p ≤ max2)) :
    prioritiesOverlap min1 max1 min2 max2 = false := by
  unfold prioritiesOverlap
  rw [decide_eq_false_iff_not]
  intro h
  exact hdisjoint (max min1 min2)
    ⟨le_max_left _ _, le_trans h (min_le_left _ _), le_max_right _ _,
      le_trans h (min_le_right _ _)⟩

/-- C9: when the priority ranges `[group1_min_priority, group1_max_priority]` and
`[group2_min_priority, group2_max_priority]` share no priority,
`checkSphereGroupAgainstSphereGroup` reports no collision, whatever the groups, the sphere
positions and the radii are. -/
theorem checkSphereGroupAgainstSphereGroup_disjoint_priorities (group1 group2 : Group)
    (spheres1 spheres2 : List Vector3) (low_res1 low_res2 : Bool)
    (group1_min_priority group1_max_priority group2_min_priority group2_max_priority : Int)
    (hdisjoint : ∀ p : Int, ¬ (group1_min_priority ≤ p ∧ p ≤ group1_max_priority ∧
      group2_min_priority ≤ p ∧ p ≤ group2_max_priority)) :
    checkSphereGroupAgainstSphereGroup group1 group2 spheres1 spheres2 low_res1 low_res2
      group1_min_priority group1_max_priority group2_min_priority group2_max_priority
      = true := by
  unfold checkSphereGroupAgainstSphereGroup
  rw [prioritiesOverlap_eq_false _ _ _ _ hdisjoint]
  rfl

/-- C9, witness: two unit spheres whose centres are half a unit apart overlap, and with the
priority ranges [0,1] and [2,3] the check reports no collision. -/
theorem checkSphereGroupAgainstSphereGroup_disjoint_priorities_witness :
    (∀ p : Int, ¬ ((0 : Int) ≤ p ∧ p ≤ 1 ∧ (2 : Int) ≤ p ∧ p ≤ 3)) ∧
    spheresCollide ⟨0, 0, 0⟩ 1 ⟨1 / 2, 0, 0⟩ 1 = true ∧
    checkSphereGroupAgainstSphereGroup (unitGroup "forearm") (unitGroup "gripper")
      [⟨0, 0, 0⟩] [⟨1 / 2, 0, 0⟩] false false 0 1 2 3 = true :=
  ⟨fun p h => by omega, by norm_num [spheresCollide, distSq],
    checkSphereGroupAgainstSphereGroup_disjoint_priorities (unitGroup "forearm")
      (unitGroup "gripper") [⟨0, 0, 0⟩] [⟨1 / 2, 0, 0⟩] false false 0 1 2 3
      (fun p h => by omega)⟩

/-- The same two overlapping unit spheres with the priority ranges [0,2] and [2,3], which
share the priority 2: the check reports the collision. -/
theorem checkSphereGroupAgainstSphereGroup_shared_priority_value :
    checkSphereGroupAgainstSphereGroup (unitGroup "forearm") (unitGroup "gripper")
      [⟨0, 0, 0⟩] [⟨1 / 2, 0, 0⟩] false false 0 2 2 3 = false := by
  norm_num [checkSphereGroupAgainstSphereGroup, prioritiesOverlap, placedSpheres, unitGroup,
    spheresCollide, distSq]

end sbpl_arm_planner
